import Mathlib

/-!
Shallow embedding of `src/inference.py`, a forward-only CNN inference engine.

Tensors live on the accelerator; for shape inference we model a tensor by its
NCHW shape, and for value-level statements we model a (flattened) tensor by a
`List ℚ` (the engine is fixed to single-precision float; we idealise the
arithmetic over ℚ).  External backend kernels (cudnn convolution / pooling /
activation / softmax, cublas gemm) are not part of the repository: where a
claim needs their semantics they are modelled from the spec and marked as such;
where only the data flow matters they are passed as function parameters.
-/

namespace Inference

/-- Python `int()` applied to a float expression: truncation toward zero.
Used by `Convolution.configure` and `Pooling.configure` (lines 96-97 and
200-201 of `inference.py`).  We idealise IEEE doubles by ℚ; on a reduced
fraction, truncation toward zero is `Int.tdiv` of numerator by denominator. -/
def pyInt (q : ℚ) : ℤ :=
  q.num.tdiv q.den

/-- Python `math.floor` on a float expression, idealised over ℚ: rounding
toward minus infinity is `Int.fdiv` of numerator by denominator. -/
def pyFloor (q : ℚ) : ℤ :=
  q.num.fdiv q.den

/-- NCHW shape of a 4-D feature map (`GPUTensor.shape`). -/
structure Shape where
  n : ℕ
  c : ℕ
  h : ℕ
  w : ℕ
deriving DecidableEq, Repr

/-- Failure modes of layer construction/configuration, following the spec's
error taxonomy.  In the Python source `shapeMismatch` and
`unsupportedConfiguration` are `assert` failures, `unsupportedLayerType` is the
`RuntimeError` of `Model.instantiate_layer`, and `indexError` is the
`IndexError` raised by `self.layers[0]` on an empty layer list. -/
inductive LayerError where
  | shapeMismatch
  | unsupportedConfiguration
  | unsupportedLayerType (tag : String)
  | indexError
deriving DecidableEq, Repr

/-- A layer-configuration record from the JSON model file, together with the
shape/contents of the parameter files its constructor loads.  Fields default
so that records for parameter-free layer types can be written tersely. -/
structure LayerRecord where
  type : String
  kW : ℕ := 0
  kH : ℕ := 0
  dW : ℕ := 0
  dH : ℕ := 0
  padW : ℕ := 0
  padH : ℕ := 0
  ceil_mode : Bool := false
  p : ℚ := 0
  Wshape0 : ℕ := 0
  Wshape1 : ℕ := 0
  linW : List (List ℚ) := []
  linBias : List ℚ := []
deriving DecidableEq, Repr

/-! ## Convolution -/

/-- `Convolution` layer state: kernel geometry copied from the config by
`SlidingLayer.__init__`, the shape of the loaded weight tensor
(`self.W.shape[0]`, `self.W.shape[1]`), and the output tensor allocated by
`configure` (`self.output = None` in `__init__`). -/
structure Convolution where
  kW : ℕ
  kH : ℕ
  dW : ℕ
  dH : ℕ
  padW : ℕ
  padH : ℕ
  filterMaps : ℕ
  filterChannels : ℕ
  output : Option Shape
deriving DecidableEq, Repr

/-- Output spatial size of one convolution axis, line 96/97 of `inference.py`:
`int((1.0 * in_width + 2*self.padW - self.kW) / self.dW + 1)`. -/
def convOutDim (inDim k pad stride : ℕ) : ℤ :=
  pyInt (((inDim : ℚ) + 2 * pad - k) / stride + 1)

/-- `Convolution.configure` (lines 84-99; the subsequent cudnn descriptor and
workspace bookkeeping is external backend state and carries no shape
information).  The channel assertion (line 94) precedes the output-tensor
allocation (line 99), so a failing call leaves the layer unchanged. -/
def Convolution.configure (l : Convolution) (input : Shape) :
    Convolution × Option LayerError :=
  if l.filterChannels = input.c then
    let outW := (convOutDim input.w l.kW l.padW l.dW).toNat
    let outH := (convOutDim input.h l.kH l.padH l.dH).toNat
    ({ l with output := some ⟨input.n, l.filterMaps, outH, outW⟩ }, none)
  else
    (l, some .shapeMismatch)

/-! ## Pooling -/

inductive PoolingMode where
  | MAX
  | AVG
deriving DecidableEq, Repr

/-- `Pooling` layer state; `__init__` never touches `self.output` (it is first
assigned in `configure`), modelled by `output := none` at construction. -/
structure Pooling where
  mode : PoolingMode
  kW : ℕ
  kH : ℕ
  dW : ℕ
  dH : ℕ
  padW : ℕ
  padH : ℕ
  output : Option Shape
deriving DecidableEq, Repr

/-- `Pooling.__init__` (lines 176-187): copies the kernel geometry and then
asserts `config["ceil_mode"] == False`; a raised assertion means no `Pooling`
object (and in particular no output tensor) is ever produced. -/
def Pooling.init (mode : PoolingMode) (cfg : LayerRecord) :
    Except LayerError Pooling :=
  if cfg.ceil_mode = false then
    .ok ⟨mode, cfg.kW, cfg.kH, cfg.dW, cfg.dH, cfg.padW, cfg.padH, none⟩
  else
    .error .unsupportedConfiguration

/-- Output spatial size of one pooling axis, line 200/201 of `inference.py`:
`int((math.floor(1.0 * in_width - self.kW + 2*self.padW) / self.dW) + 1)`.
Note the source applies `math.floor` to the (already integral) numerator, not
to the quotient; the final `int()` truncation supplies the flooring of the
quotient. -/
def poolOutDim (inDim k pad stride : ℕ) : ℤ :=
  pyInt (((pyFloor ((inDim : ℚ) - k + 2 * pad) : ℤ) : ℚ) / stride + 1)

/-- `Pooling.configure` (lines 190-203; descriptor bookkeeping omitted as for
convolution).  Asserts `in_width >= kW` and `in_height >= kH` before any
allocation. -/
def Pooling.configure (l : Pooling) (input : Shape) :
    Pooling × Option LayerError :=
  if l.kW ≤ input.w then
    if l.kH ≤ input.h then
      let outW := (poolOutDim input.w l.kW l.padW l.dW).toNat
      let outH := (poolOutDim input.h l.kH l.padH l.dH).toNat
      ({ l with output := some ⟨input.n, input.c, outH, outW⟩ }, none)
    else (l, some .shapeMismatch)
  else (l, some .shapeMismatch)

/-! ## Activation -/

/-- `Activation.Func` enum (declared selector). -/
inductive ActivationFunc where
  | ReLU
  | TanH
deriving DecidableEq, Repr

/-- cudnn activation-mode enum as used at the `cudnnActivationForward`
call site. -/
inductive ActivationMode where
  | relu
  | tanh
deriving DecidableEq, Repr

/-- `Activation` layer state: the stored selector and the output tensor, which
`configure` sets to the input tensor itself (in-place semantics). -/
structure Activation where
  func : ActivationFunc
  output : Option Shape
deriving DecidableEq, Repr

/-- Modelled from the spec: `libcudnn.cudnnActivationForward`, the external
backend op, applies the selected function element-wise in place
(alpha=1, beta=0).  The backend's tanh kernel is external floating-point code,
so it is passed as the parameter `tanhImpl`. -/
def cudnnActivationForward (tanhImpl : ℚ → ℚ) (mode : ActivationMode)
    (v : List ℚ) : List ℚ :=
  match mode with
  | .relu => v.map (fun x => max x 0)
  | .tanh => v.map tanhImpl

/-- `Activation.fprop` (lines 249-261): invokes the backend with the mode
hardcoded to `CUDNN_ACTIVATION_RELU` (line 255); `self.func` is not consulted.
The result is the new contents of the input tensor (which the layer's output
aliases). -/
def Activation.fprop (tanhImpl : ℚ → ℚ) (l : Activation) (v : List ℚ) :
    List ℚ :=
  cudnnActivationForward tanhImpl .relu v

/-! ## Dropout -/

/-- `Dropout` layer state; `configure` sets `self.output = input`. -/
structure Dropout where
  p : ℚ
  output : Option Shape
deriving DecidableEq, Repr

/-- `Dropout.fprop` (lines 274-275): `input *= self.p`, an in-place scale of
the input tensor (which the layer's output aliases).  The result is the new
contents of that tensor. -/
def Dropout.fprop (l : Dropout) (input : List ℚ) : List ℚ :=
  input.map (fun x => x * l.p)

/-! ## Linear -/

/-- `Linear` layer state: weight matrix `W` of shape
(outFeatures × inFeatures) and bias vector, both loaded from parameter files,
plus the output tensor allocated by `configure`. -/
structure Linear where
  W : List (List ℚ)
  bias : List ℚ
  output : Option Shape
deriving DecidableEq, Repr

/-- `self.W.shape[1]` of the 2-D weight array. -/
def Linear.inFeatures (l : Linear) : ℕ := (l.W.headD []).length

/-- `self.W.shape[0]` of the 2-D weight array. -/
def Linear.outFeatures (l : Linear) : ℕ := l.W.length

/-- `Linear.configure` (lines 288-297): asserts
`np.prod(input.shape) == self.W.shape[1]` and then allocates the output as a
`(1, self.W.shape[0], 1, 1)` tensor. -/
def Linear.configure (l : Linear) (input : Shape) :
    Linear × Option LayerError :=
  if input.n * input.c * input.h * input.w = l.inFeatures then
    ({ l with output := some ⟨1, l.outFeatures, 1, 1⟩ }, none)
  else
    (l, some .shapeMismatch)

/-- Dot product of two equal-length vectors. -/
def dotQ (xs ys : List ℚ) : ℚ :=
  (List.zipWith (fun a b => a * b) xs ys).sum

/-- Modelled from the spec: `cublas_dot.cublas_gemm`, the external backend op
called by `Linear.fprop`, writes the dense matrix-vector product `W × x` into
the output buffer. -/
def cublas_gemm (W : List (List ℚ)) (x : List ℚ) : List ℚ :=
  W.map (fun row => dotQ row x)

/-- `Linear.fprop` (lines 299-309): reshapes input/output to column vectors and
calls `cublas_gemm(context.cublas, self.W, input_2d, output_2d)`.  `self.bias`
is never read here. -/
def Linear.fprop (l : Linear) (input : List ℚ) : List ℚ :=
  cublas_gemm l.W input

/-! ## SoftMax -/

inductive SoftMaxMode where
  | FAST
  | LOG
deriving DecidableEq, Repr

/-- `SoftMax` layer state; `configure` sets `self.output = input`. -/
structure SoftMax where
  mode : SoftMaxMode
  output : Option Shape
deriving DecidableEq, Repr

/-- Modelled from the spec: `libcudnn.cudnnSoftmaxForward` with
`CUDNN_SOFTMAX_LOG`, the channel-wise log-softmax normalisation applied in
place by `SoftMax.fprop`. -/
noncomputable def logSoftmax {m : ℕ} (x : Fin m → ℝ) : Fin m → ℝ :=
  fun i => x i - Real.log (∑ j, Real.exp (x j))

/-! ## Layer variants, factory dispatch, model graph -/

/-- The closed set of layer variants the engine constructs. -/
inductive Layer where
  | conv (l : Convolution)
  | pool (l : Pooling)
  | act (l : Activation)
  | drop (l : Dropout)
  | linear (l : Linear)
  | softmax (l : SoftMax)
deriving DecidableEq, Repr

/-- `Convolution.__init__` (lines 68-82): kernel geometry from the config,
weight/bias tensors loaded from the parameter files, `self.output = None`. -/
def Convolution.init (cfg : LayerRecord) : Convolution :=
  ⟨cfg.kW, cfg.kH, cfg.dW, cfg.dH, cfg.padW, cfg.padH,
    cfg.Wshape0, cfg.Wshape1, none⟩

/-- `Model.instantiate_layer` (lines 361-379): strict dispatch on the record's
`type` tag; an unknown tag raises `RuntimeError`. -/
def instantiate_layer (r : LayerRecord) : Except LayerError Layer :=
  if r.type = "SpatialConvolution" then .ok (.conv (Convolution.init r))
  else if r.type = "ReLU" then .ok (.act ⟨.ReLU, none⟩)
  else if r.type = "Threshold" then .ok (.act ⟨.ReLU, none⟩)
  else if r.type = "SpatialMaxPooling" then (Pooling.init .MAX r).map .pool
  else if r.type = "Dropout" then .ok (.drop ⟨r.p, none⟩)
  else if r.type = "Linear" then .ok (.linear ⟨r.linW, r.linBias, none⟩)
  else if r.type = "LogSoftMax" then .ok (.softmax ⟨.LOG, none⟩)
  else .error (.unsupportedLayerType r.type)

/-- The type tags `Model.instantiate_layer` dispatches on. -/
def supportedTypes : List String :=
  ["SpatialConvolution", "ReLU", "Threshold", "SpatialMaxPooling",
   "Dropout", "Linear", "LogSoftMax"]

/-- The layer-construction loop of `Model.__init__` (lines 353-357): records
with type `"View"` are skipped, every other record is instantiated in file
order; a constructor failure aborts the whole construction. -/
def buildLayers : List LayerRecord → Except LayerError (List Layer)
  | [] => .ok []
  | r :: rs =>
    if r.type = "View" then buildLayers rs
    else
      match instantiate_layer r with
      | .error e => .error e
      | .ok l => (buildLayers rs).map (fun ls => l :: ls)

/-- Per-variant `configure` dispatch; Activation, Dropout and SoftMax set
their output to the input tensor itself (in-place layers). -/
def Layer.configure : Layer → Shape → Layer × Option LayerError
  | .conv l, s =>
    let (l', e) := l.configure s
    (.conv l', e)
  | .pool l, s =>
    let (l', e) := l.configure s
    (.pool l', e)
  | .act l, s => (.act { l with output := some s }, none)
  | .drop l, s => (.drop { l with output := some s }, none)
  | .linear l, s =>
    let (l', e) := l.configure s
    (.linear l', e)
  | .softmax l, s => (.softmax { l with output := some s }, none)

/-- The `self.output` field of a layer, as a shape. -/
def Layer.outputShape : Layer → Option Shape
  | .conv l => l.output
  | .pool l => l.output
  | .act l => l.output
  | .drop l => l.output
  | .linear l => l.output
  | .softmax l => l.output

/-- The configure chain of `Model.configure` (lines 392-394): each layer is
configured with the previous layer's output shape; an assertion failure aborts
the chain, leaving the earlier layers configured. -/
def configureLayers : List Layer → Shape → List Layer × Option LayerError
  | [], _ => ([], none)
  | l :: ls, s =>
    match l.configure s with
    | (l', some e) => (l' :: ls, some e)
    | (l', none) =>
      let s' := l'.outputShape.getD ⟨0, 0, 0, 0⟩
      let (ls', e) := configureLayers ls s'
      (l' :: ls', e)

/-- `Model` state: name, ordered layer sequence, and the recorded input. -/
structure Model where
  name : String
  layers : List Layer
  input : Option Shape
deriving DecidableEq, Repr

/-- `Model.configure` (lines 386-394): records the input, returns immediately
when the layer list is empty, otherwise threads configure through the
sequence. -/
def Model.configure (m : Model) (input : Shape) : Model × Option LayerError :=
  let m' := { m with input := some input }
  match m'.layers with
  | [] => (m', none)
  | _ =>
    let (ls, e) := configureLayers m'.layers input
    ({ m' with layers := ls }, e)

/-- `Model.evaluate` (lines 397-407): `self.layers[0].fprop(input)` raises
`IndexError` on an empty layer list; otherwise each layer's fprop consumes the
previous layer's output and the last output is returned.  The per-variant
value-level forward computation is passed as `fpropFn`. -/
def Model.evaluate (fpropFn : Layer → List ℚ → List ℚ) (m : Model)
    (input : List ℚ) : Except LayerError (List ℚ) :=
  match m.layers with
  | [] => .error .indexError
  | l :: ls => .ok (ls.foldl (fun acc li => fpropFn li acc) (fpropFn l input))

/-- Data flow of `Convolution.fprop` (lines 149-165) and `Pooling.fprop`
(lines 221-231): the backend kernel reads the input tensor and overwrites the
layer's own output tensor (alpha=1, beta=0); the input tensor is not modified.
The external cudnn computation is the parameter `kernel`; the state is the
pair (input-tensor contents, output-tensor contents). -/
def slidingFprop (kernel : List ℚ → List ℚ) (s : List ℚ × List ℚ) :
    List ℚ × List ℚ :=
  (s.1, kernel s.1)

/-- Data flow of `Linear.fprop`: the gemm reads the input and overwrites the
layer's own output tensor; the input is not modified. -/
def Linear.fpropState (l : Linear) (s : List ℚ × List ℚ) : List ℚ × List ℚ :=
  (s.1, l.fprop s.1)

/-! ## Arithmetic bridge lemmas -/

theorem pyInt_eq_floor {q : ℚ} (h : 0 ≤ q) : pyInt q = ⌊q⌋ := by
  rw [pyInt, Rat.floor_def]
  exact Int.tdiv_eq_ediv (Rat.num_nonneg.2 h) (by exact_mod_cast Nat.zero_le q.den)

theorem pyFloor_eq_floor (q : ℚ) : pyFloor q = ⌊q⌋ := by
  rw [pyFloor, Rat.floor_def]
  exact Int.fdiv_eq_ediv _ (by exact_mod_cast Nat.zero_le q.den)

theorem floor_nat_div (m s : ℕ) : ⌊(m : ℚ) / (s : ℚ)⌋ = ((m / s : ℕ) : ℤ) := by
  rw [Rat.floor_natCast_div_natCast]
  exact (Int.ofNat_ediv m s).symm

theorem pyInt_nat_div_add_one (m s : ℕ) :
    pyInt ((m : ℚ) / (s : ℚ) + 1) = ((m / s + 1 : ℕ) : ℤ) := by
  have h0 : (0 : ℚ) ≤ (m : ℚ) / (s : ℚ) + 1 := by positivity
  rw [pyInt_eq_floor h0, Int.floor_add_one, floor_nat_div]
  push_cast
  ring

/-- The truncating `int()` of line 96/97 agrees with the exact integer
formula `(in + 2p - k)/s + 1` (ℕ-division is the floor) whenever
`k ≤ in + 2p`. -/
theorem convOutDim_eq (a k p s : ℕ) (hk : k ≤ a + 2 * p) (hs : 0 < s) :
    convOutDim a k p s = (((a + 2 * p - k) / s + 1 : ℕ) : ℤ) := by
  have hcast : (a : ℚ) + 2 * p - k = ((a + 2 * p - k : ℕ) : ℚ) := by
    have h := Nat.cast_sub (R := ℚ) hk
    push_cast at h ⊢
    linarith
  rw [convOutDim, hcast, pyInt_nat_div_add_one]

/-- The misplaced-`math.floor` expression of line 200/201 agrees with the
exact integer formula `(in - k + 2p)/s + 1` whenever `k ≤ in`. -/
theorem poolOutDim_eq (a k p s : ℕ) (hk : k ≤ a) (hs : 0 < s) :
    poolOutDim a k p s = (((a - k + 2 * p) / s + 1 : ℕ) : ℤ) := by
  have hcast : (a : ℚ) - k + 2 * p = ((a - k + 2 * p : ℕ) : ℚ) := by
    have h := Nat.cast_sub (R := ℚ) hk
    push_cast at h ⊢
    linarith
  rw [poolOutDim, hcast, pyFloor_eq_floor, Int.floor_natCast, Int.cast_natCast,
    pyInt_nat_div_add_one]

/-! ## Claim theorems -/

/-- C1: for a Convolution layer with matching channels and `k ≤ in + 2p` per
axis, `configure` allocates an output of spatial size
`floor((in + 2p - k)/s) + 1` per axis, as an exact integer identity; in
particular `k=1, s=1, p=0` is size-preserving and `k=3, s=2, p=1` halves
(size `(in-1)/2 + 1`). -/
theorem conv_configure_out_size (l : Convolution) (input : Shape)
    (hc : l.filterChannels = input.c)
    (hw : l.kW ≤ input.w + 2 * l.padW) (hh : l.kH ≤ input.h + 2 * l.padH)
    (hdW : 0 < l.dW) (hdH : 0 < l.dH) :
    l.configure input =
      ({ l with output := some ⟨input.n, l.filterMaps,
          (input.h + 2 * l.padH - l.kH) / l.dH + 1,
          (input.w + 2 * l.padW - l.kW) / l.dW + 1⟩ }, none) ∧
    (∀ a : ℕ, 1 ≤ a → convOutDim a 1 0 1 = (a : ℤ)) ∧
    (∀ a : ℕ, 1 ≤ a → convOutDim a 3 1 2 = (((a - 1) / 2 + 1 : ℕ) : ℤ)) := by
  refine ⟨?_, ?_, ?_⟩
  · simp only [Convolution.configure, if_pos hc]
    rw [convOutDim_eq _ _ _ _ hw hdW, convOutDim_eq _ _ _ _ hh hdH]
    simp only [Int.toNat_natCast]
  · intro a ha
    rw [convOutDim_eq a 1 0 1 (by omega) (by omega)]
    omega
  · intro a ha
    rw [convOutDim_eq a 3 1 2 (by omega) (by omega)]
    omega

theorem conv_configure_out_size_witness :
    ((3 : ℕ) = 3 ∧ (3 : ℕ) ≤ 8 + 2 * 1 ∧ (0 : ℕ) < 2) ∧
    (Convolution.configure ⟨3, 3, 2, 2, 1, 1, 4, 3, none⟩ ⟨1, 3, 8, 8⟩ =
        ({ kW := 3, kH := 3, dW := 2, dH := 2, padW := 1, padH := 1,
           filterMaps := 4, filterChannels := 3,
           output := some ⟨1, 4, (8 + 2 * 1 - 3) / 2 + 1,
             (8 + 2 * 1 - 3) / 2 + 1⟩ }, none) ∧
      (∀ a : ℕ, 1 ≤ a → convOutDim a 1 0 1 = (a : ℤ)) ∧
      (∀ a : ℕ, 1 ≤ a → convOutDim a 3 1 2 = (((a - 1) / 2 + 1 : ℕ) : ℤ))) :=
  ⟨⟨rfl, by decide, by decide⟩,
    conv_configure_out_size ⟨3, 3, 2, 2, 1, 1, 4, 3, none⟩ ⟨1, 3, 8, 8⟩ rfl
      (by decide) (by decide) (by decide) (by decide)⟩

/-- C2: for a Pooling layer with `in ≥ k` per axis (asserted by `configure`),
the output spatial size per axis is `floor((in - k + 2p)/s) + 1` as an exact
integer identity; an input smaller than the kernel on either axis makes
`configure` fail the assertion without touching the layer. -/
theorem pool_configure_out_size (l : Pooling) (input : Shape)
    (hw : l.kW ≤ input.w) (hh : l.kH ≤ input.h)
    (hdW : 0 < l.dW) (hdH : 0 < l.dH) :
    l.configure input =
      ({ l with output := some ⟨input.n, input.c,
          (input.h - l.kH + 2 * l.padH) / l.dH + 1,
          (input.w - l.kW + 2 * l.padW) / l.dW + 1⟩ }, none) ∧
    (∀ (l' : Pooling) (inp : Shape), inp.w < l'.kW →
        l'.configure inp = (l', some .shapeMismatch)) ∧
    (∀ (l' : Pooling) (inp : Shape), l'.kW ≤ inp.w → inp.h < l'.kH →
        l'.configure inp = (l', some .shapeMismatch)) := by
  refine ⟨?_, ?_, ?_⟩
  · simp only [Pooling.configure, if_pos hw, if_pos hh]
    rw [poolOutDim_eq _ _ _ _ hw hdW, poolOutDim_eq _ _ _ _ hh hdH]
    simp only [Int.toNat_natCast]
  · intro l' inp h
    simp only [Pooling.configure]
    rw [if_neg (by omega)]
  · intro l' inp h1 h2
    simp only [Pooling.configure]
    rw [if_pos h1, if_neg (by omega)]

theorem pool_configure_out_size_witness :
    ((2 : ℕ) ≤ 8 ∧ (2 : ℕ) ≤ 8 ∧ (0 : ℕ) < 2) ∧
    (Pooling.configure ⟨.MAX, 2, 2, 2, 2, 0, 0, none⟩ ⟨1, 3, 8, 8⟩ =
        ({ mode := .MAX, kW := 2, kH := 2, dW := 2, dH := 2, padW := 0,
           padH := 0, output := some ⟨1, 3, (8 - 2 + 2 * 0) / 2 + 1,
             (8 - 2 + 2 * 0) / 2 + 1⟩ }, none) ∧
      (∀ (l' : Pooling) (inp : Shape), inp.w < l'.kW →
          l'.configure inp = (l', some .shapeMismatch)) ∧
      (∀ (l' : Pooling) (inp : Shape), l'.kW ≤ inp.w → inp.h < l'.kH →
          l'.configure inp = (l', some .shapeMismatch))) :=
  ⟨⟨by decide, by decide, by decide⟩,
    pool_configure_out_size ⟨.MAX, 2, 2, 2, 2, 0, 0, none⟩ ⟨1, 3, 8, 8⟩
      (by decide) (by decide) (by decide) (by decide)⟩

/-- C6: a Convolution whose filter-channel count differs from the input's
channel count fails `configure` with the shape-mismatch assertion, and the
failed call leaves the layer — in particular its `output` field — unchanged
(the assertion precedes the output allocation). -/
theorem conv_configure_channel_mismatch (l : Convolution) (input : Shape)
    (h : l.filterChannels ≠ input.c) :
    l.configure input = (l, some .shapeMismatch) ∧
    (l.configure input).1.output = l.output := by
  have he : l.configure input = (l, some .shapeMismatch) := by
    simp only [Convolution.configure, if_neg h]
  exact ⟨he, by rw [he]⟩

theorem conv_configure_channel_mismatch_witness :
    ((2 : ℕ) ≠ 3) ∧
    (Convolution.configure ⟨3, 3, 1, 1, 0, 0, 4, 2, none⟩ ⟨1, 3, 8, 8⟩ =
        (⟨3, 3, 1, 1, 0, 0, 4, 2, none⟩, some .shapeMismatch) ∧
      (Convolution.configure ⟨3, 3, 1, 1, 0, 0, 4, 2, none⟩ ⟨1, 3, 8, 8⟩).1.output =
        (⟨3, 3, 1, 1, 0, 0, 4, 2, none⟩ : Convolution).output) :=
  ⟨by decide,
    conv_configure_channel_mismatch ⟨3, 3, 1, 1, 0, 0, 4, 2, none⟩ ⟨1, 3, 8, 8⟩
      (by decide)⟩

/-- C7: a Pooling configuration record with the ceiling-rounding flag set
makes construction itself fail (`assert config["ceil_mode"] == False` in
`__init__`), so no layer object and no output tensor is ever produced and
`configure` never runs. -/
theorem pool_init_ceil_mode_fails (mode : PoolingMode) (cfg : LayerRecord)
    (h : cfg.ceil_mode = true) :
    Pooling.init mode cfg = .error .unsupportedConfiguration := by
  simp only [Pooling.init]
  rw [if_neg (by simp [h])]

theorem pool_init_ceil_mode_fails_witness :
    ((⟨"SpatialMaxPooling", 2, 2, 2, 2, 0, 0, true, 0, 0, 0, [], []⟩ :
        LayerRecord).ceil_mode = true) ∧
    Pooling.init .MAX ⟨"SpatialMaxPooling", 2, 2, 2, 2, 0, 0, true, 0, 0, 0, [], []⟩ =
      .error .unsupportedConfiguration :=
  ⟨rfl, pool_init_ceil_mode_fails .MAX _ rfl⟩

/-- C8: `Linear.configure` fails with the shape-mismatch assertion exactly
when the product of the input shape differs from `inFeatures = W.shape[1]`;
on a match it allocates the output tensor with shape
`(1, outFeatures, 1, 1)`. -/
theorem linear_configure_spec (l : Linear) (input : Shape) :
    (input.n * input.c * input.h * input.w ≠ l.inFeatures →
      l.configure input = (l, some .shapeMismatch)) ∧
    (input.n * input.c * input.h * input.w = l.inFeatures →
      l.configure input = ({ l with output := some ⟨1, l.outFeatures, 1, 1⟩ }, none)) := by
  constructor
  · intro h
    simp only [Linear.configure, if_neg h]
  · intro h
    simp only [Linear.configure, if_pos h]

theorem linear_configure_spec_witness :
    ((1 * 1 * 2 * 2 : ℕ) =
        (⟨[[1, 0, 0, 0], [0, 1, 0, 0]], [5, 5], none⟩ : Linear).inFeatures) ∧
    (Linear.configure ⟨[[1, 0, 0, 0], [0, 1, 0, 0]], [5, 5], none⟩ ⟨1, 1, 2, 2⟩ =
      ({ W := [[1, 0, 0, 0], [0, 1, 0, 0]], bias := [5, 5],
         output := some ⟨1, (⟨[[1, 0, 0, 0], [0, 1, 0, 0]], [5, 5], none⟩ : Linear).outFeatures,
           1, 1⟩ }, none)) :=
  ⟨rfl,
    (linear_configure_spec ⟨[[1, 0, 0, 0], [0, 1, 0, 0]], [5, 5], none⟩ ⟨1, 1, 2, 2⟩).2 rfl⟩

/-- C3: `Linear.fprop` computes exactly the dense matrix-vector product of the
weight matrix with the (flattened) input; the loaded bias vector is never
read, so the result is independent of it — the bias is not added. -/
theorem linear_fprop_no_bias (l : Linear) (x : List ℚ) :
    l.fprop x = l.W.map (fun row => dotQ row x) ∧
    ∀ b : List ℚ, Linear.fprop ⟨l.W, b, l.output⟩ x = l.fprop x :=
  ⟨rfl, fun _ => rfl⟩

/-- C4: `Activation.fprop` invokes the ReLU backend operation regardless of
the stored function selector — in particular a layer constructed with the
`TanH` selector still computes ReLU element-wise, e.g. input `[-1]` yields
`[0]` where tanh would be negative.  This holds for every possible backend
tanh kernel `tanhImpl`, i.e. the tanh path is unreachable. -/
theorem activation_fprop_always_relu :
    ∀ (tanhImpl : ℚ → ℚ) (f : ActivationFunc) (o : Option Shape) (v : List ℚ),
      Activation.fprop tanhImpl ⟨f, o⟩ v = v.map (fun x => max x 0) ∧
      Activation.fprop tanhImpl ⟨ActivationFunc.TanH, o⟩ [-1] = [0] := by
  intro tanhImpl f o v
  refine ⟨rfl, ?_⟩
  show cudnnActivationForward tanhImpl .relu [-1] = [0]
  norm_num [cudnnActivationForward]

/-- C5 counterexample: two consecutive `Dropout.fprop` calls on the same
input tensor do not leave the output a single call would produce: with
`p = 1/2` and input `[1]`, one call gives `[1/2]`, two calls give `[1/4]`. -/
theorem dropout_fprop_not_idempotent :
    Dropout.fprop ⟨(1 : ℚ) / 2, none⟩ (Dropout.fprop ⟨(1 : ℚ) / 2, none⟩ [1]) ≠
      Dropout.fprop ⟨(1 : ℚ) / 2, none⟩ [1] := by
  norm_num [Dropout.fprop]

/-- C5 (amended): repeated `fprop` with the same input recomputes the same
output for Convolution and Pooling (overwrite of the layer's own output from
an unmodified input, for any backend kernel), for Linear (same data flow), for
Activation (in-place ReLU is idempotent), and for SoftMax (in-place
log-softmax is idempotent); but Dropout's in-place `input *= p` compounds:
two consecutive calls leave `p² · x` instead of `p · x`. -/
theorem fprop_idempotent_except_dropout :
    (∀ (kernel : List ℚ → List ℚ) (s : List ℚ × List ℚ),
        slidingFprop kernel (slidingFprop kernel s) = slidingFprop kernel s) ∧
    (∀ (l : Linear) (s : List ℚ × List ℚ),
        l.fpropState (l.fpropState s) = l.fpropState s) ∧
    (∀ (tanhImpl : ℚ → ℚ) (l : Activation) (v : List ℚ),
        Activation.fprop tanhImpl l (Activation.fprop tanhImpl l v) =
          Activation.fprop tanhImpl l v) ∧
    (∀ (m : ℕ) (x : Fin (m + 1) → ℝ), logSoftmax (logSoftmax x) = logSoftmax x) ∧
    (∀ (l : Dropout) (v : List ℚ),
        l.fprop (l.fprop v) = v.map (fun x => x * (l.p * l.p))) := by
  refine ⟨fun kernel s => rfl, fun l s => rfl, ?_, ?_, ?_⟩
  · intro t l v
    show cudnnActivationForward t .relu (cudnnActivationForward t .relu v) = _
    simp only [cudnnActivationForward, List.map_map]
    refine congrArg (fun f => List.map f v) ?_
    funext x
    simp only [Function.comp]
    rw [max_assoc, max_self]
  · intro m x
    funext i
    have hS : 0 < ∑ j, Real.exp (x j) :=
      Finset.sum_pos (fun j _ => Real.exp_pos _) Finset.univ_nonempty
    have h1 : (∑ j, Real.exp (logSoftmax x j)) = 1 := by
      simp only [logSoftmax, Real.exp_sub, Real.exp_log hS]
      rw [← Finset.sum_div, div_self (ne_of_gt hS)]
    have h2 : logSoftmax (logSoftmax x) i
        = logSoftmax x i - Real.log (∑ j, Real.exp (logSoftmax x j)) := rfl
    rw [h2, h1, Real.log_one, sub_zero]
  · intro l v
    simp only [Dropout.fprop, List.map_map]
    refine congrArg (fun f => List.map f v) ?_
    funext x
    simp only [Function.comp]
    rw [mul_assoc]

/-- Unknown type tags make `instantiate_layer` raise. -/
theorem instantiate_layer_unsupported (r : LayerRecord)
    (h : r.type ∉ supportedTypes) :
    instantiate_layer r = .error (.unsupportedLayerType r.type) := by
  simp only [supportedTypes, List.mem_cons, List.not_mem_nil, or_false, not_or] at h
  obtain ⟨h1, h2, h3, h4, h5, h6, h7⟩ := h
  simp only [instantiate_layer, if_neg h1, if_neg h2, if_neg h3, if_neg h4,
    if_neg h5, if_neg h6, if_neg h7]

/-- A record with an unknown, non-`"View"` type tag anywhere in the sequence
makes the whole model construction fail. -/
theorem buildLayers_error_of_unsupported (rs : List LayerRecord)
    (h : ∃ r ∈ rs, r.type ∉ supportedTypes ∧ r.type ≠ "View") :
    ∃ e, buildLayers rs = .error e := by
  induction rs with
  | nil => obtain ⟨r, hr, -⟩ := h; cases hr
  | cons r rs ih =>
    obtain ⟨r', hr', hunk, hnv⟩ := h
    simp only [buildLayers]
    by_cases hv : r.type = "View"
    · rw [if_pos hv]
      refine ih ⟨r', ?_, hunk, hnv⟩
      rcases List.mem_cons.1 hr' with he | hm
      · exact absurd (he ▸ hv) hnv
      · exact hm
    · rw [if_neg hv]
      cases hi : instantiate_layer r with
      | error e => exact ⟨e, rfl⟩
      | ok l =>
        rcases List.mem_cons.1 hr' with he | hm
        · rw [← he] at hi
          rw [instantiate_layer_unsupported r' hunk] at hi
          cases hi
        · obtain ⟨e, he⟩ := ih ⟨r', hm, hunk, hnv⟩
          exact ⟨e, by rw [he]; rfl⟩

/-- When every non-`"View"` record instantiates successfully, the constructed
layer sequence is exactly the non-`"View"` records in file order. -/
theorem buildLayers_ok (rs : List LayerRecord)
    (h : ∀ r ∈ rs, r.type ≠ "View" → (instantiate_layer r).isOk = true) :
    buildLayers rs = .ok ((rs.filter (fun r => r.type ≠ "View")).filterMap
      (fun r => (instantiate_layer r).toOption)) := by
  induction rs with
  | nil => rfl
  | cons r rs ih =>
    simp only [buildLayers]
    by_cases hv : r.type = "View"
    · rw [if_pos hv]
      rw [ih (fun r' hr' => h r' (List.mem_cons_of_mem r hr'))]
      congr 1
      rw [List.filter_cons]
      simp [hv]
    · rw [if_neg hv]
      have hoki := h r (List.mem_cons_self r rs) hv
      cases hi : instantiate_layer r with
      | error e => rw [hi] at hoki; cases hoki
      | ok l =>
        rw [ih (fun r' hr' => h r' (List.mem_cons_of_mem r hr'))]
        simp [List.filter_cons, hv, List.filterMap_cons, hi, Except.toOption,
          Except.map]

/-- C9: model construction dispatches strictly on the declared type tag — a
tag with no implementation is a hard construction-time failure rather than a
silent skip, except `"View"` records, which are elided while all other records
are constructed in file order. -/
theorem layer_factory_dispatch :
    (∀ r : LayerRecord, r.type ∉ supportedTypes →
        instantiate_layer r = .error (.unsupportedLayerType r.type)) ∧
    (∀ rs : List LayerRecord,
        (∃ r ∈ rs, r.type ∉ supportedTypes ∧ r.type ≠ "View") →
        ∃ e, buildLayers rs = .error e) ∧
    (∀ rs : List LayerRecord,
        (∀ r ∈ rs, r.type ≠ "View" → (instantiate_layer r).isOk = true) →
        buildLayers rs = .ok ((rs.filter (fun r => r.type ≠ "View")).filterMap
          (fun r => (instantiate_layer r).toOption))) :=
  ⟨instantiate_layer_unsupported, buildLayers_error_of_unsupported, buildLayers_ok⟩

theorem layer_factory_dispatch_witness :
    (∃ r ∈ ([{ type := "View" }, { type := "ReLU" }, { type := "Bogus" }] :
        List LayerRecord), r.type ∉ supportedTypes ∧ r.type ≠ "View") ∧
    ∃ e, buildLayers [{ type := "View" }, { type := "ReLU" }, { type := "Bogus" }] =
      .error e :=
  ⟨by decide,
    layer_factory_dispatch.2.1
      [{ type := "View" }, { type := "ReLU" }, { type := "Bogus" }] (by decide)⟩

/-- C10: on a model whose layer sequence is empty, `configure` returns
successfully having only recorded the input, while `evaluate` always raises
(`self.layers[0]` on an empty list) instead of returning an output tensor,
for every choice of per-layer forward semantics and every input. -/
theorem model_empty_layers (m : Model) (input : Shape) (hm : m.layers = []) :
    m.configure input = ({ m with input := some input }, none) ∧
    ∀ (f : Layer → List ℚ → List ℚ) (x : List ℚ),
      m.evaluate f x = .error .indexError := by
  obtain ⟨nm, ls, inp⟩ := m
  cases hm
  exact ⟨rfl, fun f x => rfl⟩

theorem model_empty_layers_witness :
    ((⟨"empty", [], none⟩ : Model).layers = []) ∧
    (Model.configure ⟨"empty", [], none⟩ ⟨1, 3, 8, 8⟩ =
        ({ name := "empty", layers := [], input := some ⟨1, 3, 8, 8⟩ }, none) ∧
      ∀ (f : Layer → List ℚ → List ℚ) (x : List ℚ),
        Model.evaluate f ⟨"empty", [], none⟩ x = .error .indexError) :=
  ⟨rfl, model_empty_layers ⟨"empty", [], none⟩ ⟨1, 3, 8, 8⟩ rfl⟩

end Inference
